import Mathlib

/-!
Shallow embedding of `DailyCuckoo.py` (a daily portfolio-valuation notifier).

Modelling conventions:
* Python floats are modelled as `ℚ`; Python ints as `ℤ` (or `ℕ` for HTTP
  status codes).
* Python code that can raise an exception is modelled in `Except String`;
  the error string names the Python exception that would be raised.
* Python dictionaries used as quote maps are modelled as functions
  `String → Option StockData` (the `dict.get` view); the portfolio dict is
  modelled as an association list in insertion order.
* `Optional` fields (produced by `safe_convert`) are `Option` values.
-/

/-- Round a rational to the nearest integer, ties to the even integer.
Models the rounding used by Python for `round(x, 2)` and `format(x, ".2f")`
(round-half-even on the decimal value). -/
def roundHalfEven (q : ℚ) : ℤ :=
  let f : ℤ := ⌊q⌋
  let frac : ℚ := q - f
  if frac < 1/2 then f
  else if frac > 1/2 then f + 1
  else if 2 ∣ f then f else f + 1

/-- Model of Python `round(x, 2)`: round to two decimal places, half to even. -/
def pyRound2 (q : ℚ) : ℚ := (roundHalfEven (q * 100) : ℚ) / 100

/-- Render a nonnegative number of hundredths as a fixed-point numeral with
two digits after the decimal point (e.g. `417 ↦ "4.17"`). -/
def hundredthsToString (n : ℕ) : String :=
  toString (n / 100) ++ "." ++ (if n % 100 < 10 then "0" else "") ++ toString (n % 100)

/-- Model of Python `f"{x:.2f}"`: sign taken from the value, magnitude rounded
half-to-even to two decimals. -/
def formatFixed2 (q : ℚ) : String :=
  (if q < 0 then "-" else "") ++ hundredthsToString (roundHalfEven (|q| * 100)).toNat

/-- Model of Python `f"{x:+.2f}"`: like `formatFixed2` but with an explicit
leading `+` on nonnegative values. -/
def formatSigned2 (q : ℚ) : String :=
  (if q < 0 then "-" else "+") ++ hundredthsToString (roundHalfEven (|q| * 100)).toNat

/-- Decimal-digit test for a character (ASCII `0`-`9`). -/
def isDigitChar (c : Char) : Bool :=
  decide (48 ≤ c.toNat ∧ c.toNat ≤ 57)

/-- Accumulate a decimal numeral over a list of digit characters; `none` on
the first non-digit. -/
def digitsAux : List Char → ℕ → Option ℕ
  | [], acc => some acc
  | c :: cs, acc =>
    if isDigitChar c then digitsAux cs (acc * 10 + (c.toNat - 48)) else none

/-- Parse a non-empty all-digit character list as a natural number
(structural-recursion model of `String.toNat?`). -/
def parseNatDigits : List Char → Option ℕ
  | [] => none
  | cs => digitsAux cs 0

/-- Split a character list on a separator character; models Python
`str.split(sep)` for a one-character separator (so the empty string splits
to `[""]` and adjacent separators produce empty pieces). -/
def splitChar (sep : Char) : List Char → List (List Char)
  | [] => [[]]
  | c :: cs =>
    if c = sep then [] :: splitChar sep cs
    else
      match splitChar sep cs with
      | [] => [[c]]
      | piece :: rest => (c :: piece) :: rest

/-- String view of `splitChar`. -/
def pySplit (sep : Char) (s : String) : List String :=
  (splitChar sep s.toList).map (fun cs => String.mk cs)

/-- ASCII uppercase of one character; models Python `str.upper()` on the
ticker-symbol alphabet this program feeds it. -/
def upperChar (c : Char) : Char :=
  if 97 ≤ c.toNat ∧ c.toNat ≤ 122 then Char.ofNat (c.toNat - 32) else c

/-- Model of `symbol.upper()`. -/
def pyUpper (s : String) : String :=
  String.mk (s.toList.map upperChar)

/-- Leading optional sign of a numeric literal: `(negative?, remainder)`. -/
def stripSign (s : String) : Bool × String :=
  match s.toList with
  | c :: rest =>
    if c = '-' then (true, String.mk rest)
    else if c = '+' then (false, String.mk rest)
    else (false, s)
  | [] => (false, s)

/-- Model of Python `float(s)` restricted to plain decimal literals
(optional sign, integer part, optional fractional part); returns `none`
where Python raises `ValueError`. Exponent/infinity forms are not used by
the quote feed and are modelled as failures. -/
def pyFloat (s : String) : Option ℚ :=
  let (neg, rest) := stripSign s
  let sign : ℚ := if neg then -1 else 1
  match pySplit '.' rest with
  | [ip] => (parseNatDigits ip.toList).map (fun n => sign * n)
  | [ip, fp] =>
    if ip = "" && fp = "" then none
    else
      let ipn := if ip = "" then some 0 else parseNatDigits ip.toList
      let fpn := if fp = "" then some 0 else parseNatDigits fp.toList
      match ipn, fpn with
      | some i, some f => some (sign * ((i : ℚ) + (f : ℚ) / (10 ^ fp.toList.length)))
      | _, _ => none
  | _ => none

/-- Model of Python `int(s)` on strings: optional sign followed by digits;
`none` where Python raises `ValueError`. -/
def pyInt (s : String) : Option ℤ :=
  let (neg, rest) := stripSign s
  let sign : ℤ := if neg then -1 else 1
  (parseNatDigits rest.toList).map (fun n => sign * n)

/-- Model of a Python `datetime` value as produced by
`datetime.strptime(s, "%Y-%m-%d %H:%M:%S")`. -/
structure PyDatetime where
  year : ℕ
  month : ℕ
  day : ℕ
  hour : ℕ
  minute : ℕ
  second : ℕ
deriving DecidableEq, Repr

/-- Model of `datetime.strptime(s, "%Y-%m-%d %H:%M:%S")`: split on the
format's literal separators, require decimal digits in every position and
in-range month/day/time components; `none` where Python raises
`ValueError`. (Per-month day-count validation is simplified to `day ≤ 31`.) -/
def strptime_ymd_hms (s : String) : Option PyDatetime :=
  match pySplit ' ' s with
  | [d, t] =>
    match pySplit '-' d, pySplit ':' t with
    | [ys, ms, ds], [hs, ns, ss] =>
      match parseNatDigits ys.toList, parseNatDigits ms.toList, parseNatDigits ds.toList,
        parseNatDigits hs.toList, parseNatDigits ns.toList, parseNatDigits ss.toList with
      | some y, some mo, some da, some h, some mi, some se =>
        if 1 ≤ mo ∧ mo ≤ 12 ∧ 1 ≤ da ∧ da ≤ 31 ∧ h ≤ 23 ∧ mi ≤ 59 ∧ se ≤ 59 then
          some ⟨y, mo, da, h, mi, se⟩
        else none
      | _, _, _, _, _, _ => none
    | _, _ => none
  | _ => none

/-- One symbol's market snapshot (`StockData` dataclass in the source).
Numeric fields filled through `safe_convert` are `Option`-valued. -/
structure StockData where
  symbol : String
  name : String
  price : Option ℚ
  change_percentage : Option ℚ
  timestamp : Option PyDatetime
  change_value : Option ℚ
  «open» : Option ℚ
  high : Option ℚ
  low : Option ℚ
  year_high : Option ℚ
  year_low : Option ℚ
  volume : Option ℤ
  avg_volume : Option ℤ
  market_cap : Option ℚ
  earnings_per_share : Option ℚ
  price_to_earnings_ratio : String
  dividend_yield : Option ℚ
  capital : Option ℤ
  pre_market_after_hours_price : Option ℚ
  pre_market_after_hours_price_change_percent : Option ℚ
  pre_market_after_hours_price_change_value : Option ℚ
  pre_market_after_hours_price_time : String
  last_trade_time : String
  prev_close : Option ℚ
  pre_market_after_hours_volume : Option ℤ
  year : Option ℤ
deriving DecidableEq, Repr

/-- `StockDataParser.safe_convert`: empty string gives `none`; otherwise the
result of the conversion, where the conversion function itself returns
`none` exactly where Python `type_(value)` raises `ValueError` (which the
source catches). The Lean function is total: it never fails. -/
def safe_convert {α : Type} (conv : String → Option α) (value : String) : Option α :=
  if value = "" then none else conv value

/-- Model of a Python list indexing `fields[i]`: `IndexError` (as an
`Except` error) when the index is out of range. -/
def getF (fields : List String) (i : ℕ) : Except String String :=
  match fields[i]? with
  | some v => Except.ok v
  | none => Except.error "IndexError: list index out of range"

/-- Model of the timestamp argument in `parse_data`:
`datetime.strptime(fields[3], "%Y-%m-%d %H:%M:%S") if fields[3] else None`.
A non-empty string that does not match the format raises `ValueError`,
which `parse_data` does not catch. -/
def parseTimestampField (v : String) : Except String (Option PyDatetime) :=
  if v = "" then Except.ok none
  else
    match strptime_ymd_hms v with
    | some t => Except.ok (some t)
    | none => Except.error "ValueError: time data does not match format"

/-- Construction of one `StockData` record inside the `parse_data` loop.
The field indices are accessed in the source's evaluation order
(0,1,2,3,4,...,14,17,19,21..27,29); an out-of-range index or an unparsable
non-empty timestamp fails the whole construction, exactly as in Python.
The `safe_convert` conversions themselves never fail. -/
def buildRecord (symbol : String) (fields : List String) : Except String StockData := do
  let f0 ← getF fields 0
  let f1 ← getF fields 1
  let f2 ← getF fields 2
  let f3 ← getF fields 3
  let ts ← parseTimestampField f3
  let f4 ← getF fields 4
  let f5 ← getF fields 5
  let f6 ← getF fields 6
  let f7 ← getF fields 7
  let f8 ← getF fields 8
  let f9 ← getF fields 9
  let f10 ← getF fields 10
  let f11 ← getF fields 11
  let f12 ← getF fields 12
  let f13 ← getF fields 13
  let f14 ← getF fields 14
  let f17 ← getF fields 17
  let f19 ← getF fields 19
  let f21 ← getF fields 21
  let f22 ← getF fields 22
  let f23 ← getF fields 23
  let f24 ← getF fields 24
  let f25 ← getF fields 25
  let f26 ← getF fields 26
  let f27 ← getF fields 27
  let f29 ← getF fields 29
  Except.ok
    { symbol := pyUpper symbol
      name := f0
      price := safe_convert pyFloat f1
      change_percentage := safe_convert pyFloat f2
      timestamp := ts
      change_value := safe_convert pyFloat f4
      «open» := safe_convert pyFloat f5
      high := safe_convert pyFloat f6
      low := safe_convert pyFloat f7
      year_high := safe_convert pyFloat f8
      year_low := safe_convert pyFloat f9
      volume := safe_convert pyInt f10
      avg_volume := safe_convert pyInt f11
      market_cap := safe_convert pyFloat f12
      earnings_per_share := safe_convert pyFloat f13
      price_to_earnings_ratio := f14
      dividend_yield := safe_convert pyFloat f17
      capital := safe_convert pyInt f19
      pre_market_after_hours_price := safe_convert pyFloat f21
      pre_market_after_hours_price_change_percent := safe_convert pyFloat f22
      pre_market_after_hours_price_change_value := safe_convert pyFloat f23
      pre_market_after_hours_price_time := f24
      last_trade_time := f25
      prev_close := safe_convert pyFloat f26
      pre_market_after_hours_volume := safe_convert pyInt f27
      year := safe_convert pyInt f29 }

/-- The per-match loop of `StockDataParser.parse_data`, applied to the list
of `(symbol, values)` pairs produced by `re.findall`: each value string is
split on commas and one record is built; a failing record construction
fails the whole batch (the exception propagates out of the loop). -/
def parse_matches : List (String × String) → Except String (List (String × StockData))
  | [] => Except.ok []
  | (symbol, values) :: rest => do
    let record ← buildRecord symbol (pySplit ',' values)
    let tail ← parse_matches rest
    Except.ok ((pyUpper symbol, record) :: tail)

/-- One `{threshold, comment}` entry of the `market_comments` setting. -/
structure CommentConfig where
  threshold : ℚ
  comment : String
deriving DecidableEq, Repr

/-- The settings fields used by `PortfolioManager` for comment selection. -/
structure Settings where
  benchmark_index : String
  benchmark_name : String
  market_comments : List CommentConfig
deriving Repr

/-- Model of Python `comment.format(benchmark_name=..., percentage=...)` for
templates whose placeholders are drawn from those two names. -/
def replaceAux (pat repl : List Char) : ℕ → List Char → List Char
  | 0, cs => cs
  | _, [] => []
  | fuel + 1, c :: cs =>
    if pat.isPrefixOf (c :: cs) then
      repl ++ replaceAux pat repl fuel (List.drop pat.length (c :: cs))
    else c :: replaceAux pat repl fuel cs

/-- Model of Python `str.replace(pat, repl)` for a non-empty pattern:
replace non-overlapping occurrences left to right. -/
def replaceStr (s pat repl : String) : String :=
  String.mk (replaceAux pat.toList repl.toList s.toList.length s.toList)

/-- Model of Python `comment.format(benchmark_name=..., percentage=...)` for
templates whose placeholders are drawn from those two names. -/
def formatComment (template benchmark_name percentage : String) : String :=
  replaceStr (replaceStr template "{benchmark_name}" benchmark_name) "{percentage}" percentage

/-- The percentage string built in `get_market_comment`:
`f"{'+' if change_percentage > 0 else ''}{change_percentage:.2f}%"`. -/
def percentageStr (c : ℚ) : String :=
  (if 0 < c then "+" else "") ++ formatFixed2 c ++ "%"

/-- The `for comment_config in self.settings["market_comments"]` loop of
`get_market_comment`: return the first entry whose threshold the change
percentage is strictly below, interpolated; `none` when the loop falls
through. -/
def scanComments (c : ℚ) (benchmark_name pct : String) : List CommentConfig → Option String
  | [] => none
  | cc :: rest =>
    if c < cc.threshold then some (formatComment cc.comment benchmark_name pct)
    else scanComments c benchmark_name pct rest

/-- `PortfolioManager.get_market_comment`. A missing benchmark quote yields
the fixed placeholder message. A present benchmark with a `None` change
percentage would raise `TypeError` on the `change_percentage > 0`
comparison; the `[-1]` fallback on an empty `market_comments` list raises
`IndexError`. Both are modelled as `Except.error`. -/
def get_market_comment (s : Settings) (stock_data : String → Option StockData) :
    Except String String :=
  match stock_data (pyUpper s.benchmark_index) with
  | none => Except.ok ("Unable to retrieve " ++ s.benchmark_name ++ " index data")
  | some benchmark_data =>
    match benchmark_data.change_percentage with
    | none => Except.error "TypeError: NoneType comparison"
    | some c =>
      let pct := percentageStr c
      match scanComments c s.benchmark_name pct s.market_comments with
      | some result => Except.ok result
      | none =>
        match s.market_comments.getLast? with
        | some cc => Except.ok (formatComment cc.comment s.benchmark_name pct)
        | none => Except.error "IndexError: list index out of range"

/-- One entry of the `stock_details` mapping built by `calculate_nlv`. -/
structure StockDetail where
  quantity : ℤ
  current_price : ℚ
  prev_price : ℚ
  change : ℚ
  change_percentage : ℚ
deriving DecidableEq, Repr

/-- The warning printed by `calculate_nlv` for a held symbol missing from
the quote mapping. -/
def noDataWarning (symbol : String) : String :=
  "Warning: No data available for " ++ symbol

/-- The `for symbol, quantity in self.portfolio.items()` loop of
`calculate_nlv`: accumulates the stock part of NLV and previous NLV, the
per-holding details (in portfolio order) and the printed warnings.
A held symbol missing from the quote mapping is skipped with a warning;
a present quote whose price or previous close is `None` would raise
`TypeError` on the multiplication, modelled as an error. -/
def calcHoldings (stock_data : String → Option StockData) :
    List (String × ℤ) → Except String (ℚ × ℚ × List (String × StockDetail) × List String)
  | [] => Except.ok (0, 0, [], [])
  | (symbol, quantity) :: rest =>
    match stock_data symbol with
    | none => do
      let (n, p, d, w) ← calcHoldings stock_data rest
      Except.ok (n, p, d, noDataWarning symbol :: w)
    | some stock =>
      match stock.price, stock.prev_close with
      | some price, some prev_close => do
        let current_value := price * (quantity : ℚ)
        let prev_value := prev_close * (quantity : ℚ)
        let change := current_value - prev_value
        let change_percentage := if prev_value ≠ 0 then (change / prev_value) * 100 else 0
        let (n, p, d, w) ← calcHoldings stock_data rest
        Except.ok (current_value + n, prev_value + p,
          (symbol, ⟨quantity, price, prev_close, change, change_percentage⟩) :: d, w)
      | _, _ => Except.error "TypeError: unsupported operand type for NoneType"

/-- The result dictionary of `calculate_nlv`, with the printed warnings
carried alongside. -/
structure NlvResult where
  nlv : ℚ
  change : ℚ
  change_percentage : ℚ
  stock_details : List (String × StockDetail)
  market_comment : String
  warnings : List String
deriving DecidableEq, Repr

/-- `PortfolioManager.calculate_nlv`: both accumulators start at the cash
balance; the total change percentage is zero when the previous NLV is
exactly zero; the market comment is computed by `get_market_comment` (whose
exceptions propagate). -/
def calculate_nlv (s : Settings) (portfolio : List (String × ℤ)) (cash : ℚ)
    (stock_data : String → Option StockData) : Except String NlvResult := do
  let (n, p, stock_details, warnings) ← calcHoldings stock_data portfolio
  let nlv := cash + n
  let prev_nlv := cash + p
  let total_change := nlv - prev_nlv
  let total_change_percentage := if prev_nlv ≠ 0 then (total_change / prev_nlv) * 100 else 0
  let market_comment ← get_market_comment s stock_data
  Except.ok ⟨nlv, total_change, total_change_percentage, stock_details, market_comment, warnings⟩

/-- The `nlv` block of the JSON report (each value `round(_, 2)`-ed). -/
structure JsonNlv where
  current : ℚ
  change : ℚ
  change_percentage : ℚ
deriving DecidableEq, Repr

/-- One per-symbol entry of the JSON report's `stock_details` block. -/
structure JsonStockDetail where
  quantity : ℤ
  current_price : ℚ
  change : ℚ
  change_percentage : ℚ
deriving DecidableEq, Repr

/-- The JSON report object built by `generate_report_json` (prior to
serialisation by `json.dumps`, which is pure rendering). -/
structure JsonReport where
  market_comment : String
  benchmark_index : String
  benchmark_change : Option ℚ
  nlv : JsonNlv
  stock_details : List (String × JsonStockDetail)
deriving DecidableEq, Repr

/-- `PortfolioManager.generate_report_json`: computes the valuation, then
reads `self.stock_data[self.benchmark_index.upper()]` with plain dict
indexing — a `KeyError` when the benchmark symbol is absent from the quote
mapping. -/
def generate_report_json (s : Settings) (portfolio : List (String × ℤ)) (cash : ℚ)
    (stock_data : String → Option StockData) : Except String JsonReport := do
  let nlv_data ← calculate_nlv s portfolio cash stock_data
  match stock_data (pyUpper s.benchmark_index) with
  | none => Except.error "KeyError: benchmark index absent from stock_data"
  | some benchmark_data =>
    Except.ok
      { market_comment := nlv_data.market_comment
        benchmark_index := s.benchmark_name
        benchmark_change := benchmark_data.change_percentage
        nlv :=
          { current := pyRound2 nlv_data.nlv
            change := pyRound2 nlv_data.change
            change_percentage := pyRound2 nlv_data.change_percentage }
        stock_details := nlv_data.stock_details.map (fun sd =>
          (sd.1,
            { quantity := sd.2.quantity
              current_price := pyRound2 sd.2.current_price
              change := pyRound2 sd.2.change
              change_percentage := pyRound2 sd.2.change_percentage })) }

/-- Left-justified fixed-width field, Python `f"{s:<w}"`. -/
def padRight (s : String) (w : ℕ) : String :=
  s ++ String.mk (List.replicate (w - s.length) ' ')

/-- A run of `n` dashes, Python `"-" * n`. -/
def dashes (n : ℕ) : String := String.mk (List.replicate n '-')

/-- `PortfolioManager.generate_report_string`: the text rendering, line by
line as in the source, joined with newlines. -/
def generate_report_string (s : Settings) (portfolio : List (String × ℤ)) (cash : ℚ)
    (stock_data : String → Option StockData) (include_market_comment : Bool) :
    Except String String := do
  let nlv_data ← calculate_nlv s portfolio cash stock_data
  let head :=
    if include_market_comment then
      ["Market Commentary", dashes 30, nlv_data.market_comment, ""]
    else []
  let body :=
    ["NLV Report", dashes 30,
     "Current NLV: $" ++ formatFixed2 nlv_data.nlv,
     "Change: $" ++ formatFixed2 nlv_data.change,
     "Change Percentage: " ++ formatSigned2 nlv_data.change_percentage ++ "%",
     "",
     "Detailed Stock Report", dashes 45,
     padRight "Symbol" 10 ++ padRight "Quantity" 10 ++ padRight "NLV Change" 15 ++
       padRight "Change %" 10,
     dashes 45]
  let rows := nlv_data.stock_details.map (fun sd =>
    padRight sd.1 10 ++ padRight (toString sd.2.quantity) 10 ++ "$" ++
      padRight (formatFixed2 sd.2.change) 14 ++ formatSigned2 sd.2.change_percentage ++ "%")
  Except.ok (String.intercalate "\n" (head ++ body ++ rows))

/-- `PortfolioManager.save_portfolio`: the written JSON object is the
holdings plus the reserved `cash_balance` key (modelled at the level of the
key/value pairs the JSON file holds; `json.dump`/`json.load` round-trip a
flat string-to-number object verbatim). -/
def save_portfolio (portfolio : List (String × ℚ)) (cash : ℚ) : List (String × ℚ) :=
  portfolio ++ [("cash_balance", cash)]

/-- `PortfolioManager.load_portfolio`: every key except `cash_balance`
becomes a holding; the cash balance is the `cash_balance` value, default 0. -/
def load_portfolio (data : List (String × ℚ)) : List (String × ℚ) × ℚ :=
  (data.filter (fun kv => kv.1 != "cash_balance"),
   ((data.find? (fun kv => kv.1 == "cash_balance")).map Prod.snd).getD 0)

/-- Uppercase hexadecimal digit for a value below 16. -/
def hexDigit (n : ℕ) : Char :=
  if n < 10 then Char.ofNat (48 + n) else Char.ofNat (55 + n)

/-- Bytes left unescaped by `urllib.parse.quote` with its default
`safe="/"`: ASCII letters, digits, `_ . - ~` and `/`. -/
def quoteSafeByte (b : UInt8) : Bool :=
  let c := b.toNat
  decide ((65 ≤ c ∧ c ≤ 90) ∨ (97 ≤ c ∧ c ≤ 122) ∨ (48 ≤ c ∧ c ≤ 57) ∨
    c = 95 ∨ c = 46 ∨ c = 45 ∨ c = 126 ∨ c = 47)

/-- Model of `urllib.parse.quote(s)`: percent-encode every unsafe UTF-8
byte as `%XX` with uppercase hex digits. -/
def pyQuote (s : String) : String :=
  String.join (s.toUTF8.toList.map (fun b =>
    if quoteSafeByte b then String.mk [Char.ofNat b.toNat]
    else String.mk ['%', hexDigit (b.toNat / 16), hexDigit (b.toNat % 16)]))

/-- The notification credentials read from the settings dictionary. -/
structure BarkSettings where
  bark_key : String
  bark_group : String
deriving Repr

/-- The Bark URL built inside `send_bark_notification`. -/
def barkUrl (st : BarkSettings) (title body : String) : String :=
  "https://api.day.app/" ++ st.bark_key ++ "/" ++ pyQuote title ++ "/" ++ pyQuote body ++
    "?group=" ++ st.bark_group

/-- Outcome of the single `requests.get` call: either a transport-level
failure (raising `requests.RequestException`) or a response with an HTTP
status code. -/
inductive HttpOutcome where
  | networkError (msg : String)
  | response (status : ℕ)
deriving DecidableEq, Repr

/-- The `try` block of `send_bark_notification`: issue the GET for the
built URL and call `response.raise_for_status()`, which raises `HTTPError`
for 4xx/5xx status codes. -/
def bark_attempt (http : String → HttpOutcome) (st : BarkSettings) (title body : String) :
    Except String String :=
  match http (barkUrl st title body) with
  | HttpOutcome.networkError msg => Except.error ("RequestException: " ++ msg)
  | HttpOutcome.response status =>
    if 400 ≤ status ∧ status < 600 then
      Except.error ("HTTPError: status code " ++ toString status)
    else Except.ok "Bark notification sent successfully"

/-- `NotificationService.send_bark_notification`: the `except` clauses
catch every failure of the attempt and turn it into a printed message, so
the function always returns normally (it is `String`-valued, not
`Except`-valued). -/
def send_bark_notification (http : String → HttpOutcome) (st : BarkSettings)
    (title body : String) : String :=
  match bark_attempt http st title body with
  | Except.ok m => m
  | Except.error e => "Failed to send Bark notification: " ++ e

/-- Success test for an `Except` result (used to state which report paths
complete without raising). -/
def isOkE {ε α : Type} : Except ε α → Bool
  | Except.ok _ => true
  | Except.error _ => false

/-- Peeling lemma for `Except` do-chains: a successful bind means the first
step succeeded and the continuation succeeded on its value. -/
theorem except_bind_ok {α β : Type} {x : Except String α} {f : α → Except String β} {b : β}
    (h : (x >>= f) = Except.ok b) : ∃ a, x = Except.ok a ∧ f a = Except.ok b := by
  cases x with
  | ok a => exact ⟨a, rfl, h⟩
  | error e => simp [Bind.bind, Except.bind] at h

/-- Concrete stock record builder used by the concrete test scenarios:
only the fields the valuation reads are populated. -/
def mkStock (symbol : String) (price change prev : Option ℚ) : StockData :=
  ⟨symbol, "", price, change, none, none, none, none, none, none, none, none, none,
   none, none, "", none, none, none, none, none, "", "", prev, none, none⟩

/-- C3: `safe_convert` returns `none` on the empty string, returns `none`
when the conversion fails, and otherwise returns the typed value; being a
total Lean function it never raises (the single `ValueError` Python could
see is what the conversion's `none` models, and it is caught). -/
theorem safe_convert_total {α : Type} (conv : String → Option α) (v : String) :
    safe_convert conv "" = none ∧
    (v ≠ "" → conv v = none → safe_convert conv v = none) ∧
    (v ≠ "" → ∀ x, conv v = some x → safe_convert conv v = some x) := by
  refine ⟨by simp [safe_convert], fun hv hc => ?_, fun hv x hc => ?_⟩
  · simp [safe_convert, hv, hc]
  · simp [safe_convert, hv, hc]

/-- Witness for C3 at a concrete conversion: `float("1.5")` through
`safe_convert` yields the typed value `3/2`. -/
theorem safe_convert_total_witness : safe_convert pyFloat "1.5" = some (3/2) := by
  have hc : pyFloat "1.5" = some (3/2) := by
    simp [pyFloat, stripSign, pySplit, splitChar, parseNatDigits, digitsAux, isDigitChar]
    norm_num
  exact (safe_convert_total pyFloat "1.5").2.2 (by decide) (3/2) hc

/-- C5: saving a portfolio whose holdings do not use the reserved
`cash_balance` key and loading the written object yields the same holdings
and the same cash balance. -/
theorem portfolio_roundtrip (portfolio : List (String × ℚ)) (cash : ℚ)
    (h : "cash_balance" ∉ portfolio.map Prod.fst) :
    load_portfolio (save_portfolio portfolio cash) = (portfolio, cash) := by
  have hall : ∀ kv ∈ portfolio, (kv.1 != "cash_balance") = true := by
    intro kv hkv
    simp only [bne_iff_ne, ne_eq]
    intro hEq
    exact h (List.mem_map.mpr ⟨kv, hkv, hEq⟩)
  have hfind : portfolio.find? (fun kv => kv.1 == "cash_balance") = none := by
    apply List.find?_eq_none.mpr
    intro kv hkv
    simpa [bne_iff_ne] using hall kv hkv
  simp [load_portfolio, save_portfolio, List.filter_append, List.filter_eq_self.mpr hall, hfind]

/-- Witness for C5 on a concrete one-holding portfolio. -/
theorem portfolio_roundtrip_witness :
    load_portfolio (save_portfolio [("AAPL", 10)] 1000) = ([("AAPL", 10)], 1000) :=
  portfolio_roundtrip [("AAPL", 10)] 1000 (by decide)

/-- C9: for every outcome of the notification HTTP call, the send function
returns normally with a log message — a transport failure or a 4xx/5xx
status produces the "Failed to send Bark notification" message instead of
propagating, and a successful response produces the success message. -/
theorem bark_never_raises (http : String → HttpOutcome) (st : BarkSettings)
    (title body : String) :
    (∀ msg, http (barkUrl st title body) = HttpOutcome.networkError msg →
      send_bark_notification http st title body =
        "Failed to send Bark notification: RequestException: " ++ msg) ∧
    (∀ status, http (barkUrl st title body) = HttpOutcome.response status →
      400 ≤ status → status < 600 →
      send_bark_notification http st title body =
        "Failed to send Bark notification: HTTPError: status code " ++ toString status) ∧
    (∀ status, http (barkUrl st title body) = HttpOutcome.response status →
      ¬(400 ≤ status ∧ status < 600) →
      send_bark_notification http st title body = "Bark notification sent successfully") := by
  refine ⟨fun msg hm => ?_, fun status hs h4 h6 => ?_, fun status hs hns => ?_⟩
  · simp [send_bark_notification, bark_attempt, hm]
    rw [← String.append_assoc]
    rfl
  · simp [send_bark_notification, bark_attempt, hs, h4, h6]
    rw [← String.append_assoc]
    rfl
  · simp [send_bark_notification, bark_attempt, hs, hns]

/-- Witness for C9: a simulated network error is caught and logged, with
the function returning the failure message. -/
theorem bark_never_raises_witness :
    send_bark_notification (fun _ => HttpOutcome.networkError "timeout")
      ⟨"key", "group"⟩ "title" "body" =
      "Failed to send Bark notification: RequestException: " ++ "timeout" :=
  (bark_never_raises (fun _ => HttpOutcome.networkError "timeout")
    ⟨"key", "group"⟩ "title" "body").1 "timeout" rfl

/-- C10: with the benchmark present (and a numeric change percentage) and an
empty `market_comments` list, comment selection fails with the `IndexError`
of the `[-1]` fallback; with a non-empty list it always returns a comment. -/
theorem comment_requires_nonempty :
    (∀ (s : Settings) (stock_data : String → Option StockData) (bd : StockData) (c : ℚ),
      stock_data (pyUpper s.benchmark_index) = some bd →
      bd.change_percentage = some c →
      s.market_comments = [] →
      get_market_comment s stock_data = Except.error "IndexError: list index out of range") ∧
    (∀ (s : Settings) (stock_data : String → Option StockData) (bd : StockData) (c : ℚ),
      stock_data (pyUpper s.benchmark_index) = some bd →
      bd.change_percentage = some c →
      s.market_comments ≠ [] →
      isOkE (get_market_comment s stock_data) = true) := by
  constructor
  · intro s stock_data bd c hbd hc hempty
    simp [get_market_comment, hbd, hc, hempty, scanComments]
  · intro s stock_data bd c hbd hc hne
    simp only [get_market_comment, hbd, hc]
    cases hscan : scanComments c s.benchmark_name (percentageStr c) s.market_comments with
    | some result => simp [isOkE]
    | none =>
      cases hlast : s.market_comments.getLast? with
      | some cc => simp [isOkE]
      | none => exact absurd (List.getLast?_eq_none_iff.mp hlast) hne

/-- Witness for C10: a concrete present benchmark with an empty comment list
makes comment selection raise. -/
theorem comment_requires_nonempty_witness :
    get_market_comment ⟨"dji", "Dow Jones", []⟩
      (fun sym => if sym = "DJI" then some (mkStock "DJI" none (some 1) none) else none) =
      Except.error "IndexError: list index out of range" :=
  comment_requires_nonempty.1 ⟨"dji", "Dow Jones", []⟩
    (fun sym => if sym = "DJI" then some (mkStock "DJI" none (some 1) none) else none)
    (mkStock "DJI" none (some 1) none) 1 (by simp [pyUpper, upperChar, mkStock]) rfl rfl

/-- Spec-side selector for the market comment: the first entry whose
threshold strictly exceeds the change percentage, else the last entry
(stated with a total `getLastD`; the default is never reached on a
non-empty list). -/
def selectComment (c : ℚ) (l : List CommentConfig) : CommentConfig :=
  (l.find? (fun cc => decide (c < cc.threshold))).getD (l.getLastD ⟨0, ""⟩)

/-- The scanning loop agrees with `List.find?` followed by interpolation. -/
theorem scanComments_eq_find (c : ℚ) (benchmark_name pct : String)
    (l : List CommentConfig) :
    scanComments c benchmark_name pct l =
      (l.find? (fun cc => decide (c < cc.threshold))).map
        (fun cc => formatComment cc.comment benchmark_name pct) := by
  induction l with
  | nil => rfl
  | cons cc rest ih =>
    by_cases hc : c < cc.threshold
    · simp [scanComments, List.find?_cons, hc]
    · simp [scanComments, List.find?_cons, hc, ih]

/-- A concrete settings value realising the spec's threshold example
`[-5: "crash", 0: "down", 999: "up"]`. -/
def exampleSettings : Settings :=
  ⟨"dji", "Dow Jones", [⟨-5, "crash"⟩, ⟨0, "down"⟩, ⟨999, "up"⟩]⟩

/-- A quote mapping holding only the benchmark, with the given change
percentage. -/
def benchOnlyQuotes (c : ℚ) : String → Option StockData :=
  fun sym => if sym = "DJI" then some (mkStock "DJI" none (some c) none) else none

/-- C2: for a present benchmark with numeric change percentage and a
non-empty threshold list, the selected comment is the interpolation of the
first entry whose threshold strictly exceeds the change, falling back to
the last entry; on the spec's example list, changes of -2.5, -10 and 500
select "down", "crash" and "up" respectively. -/
theorem market_comment_selection :
    (∀ (s : Settings) (stock_data : String → Option StockData) (bd : StockData) (c : ℚ),
      stock_data (pyUpper s.benchmark_index) = some bd →
      bd.change_percentage = some c →
      s.market_comments ≠ [] →
      get_market_comment s stock_data =
        Except.ok (formatComment (selectComment c s.market_comments).comment
          s.benchmark_name (percentageStr c))) ∧
    get_market_comment exampleSettings (benchOnlyQuotes (-5/2)) = Except.ok "down" ∧
    get_market_comment exampleSettings (benchOnlyQuotes (-10)) = Except.ok "crash" ∧
    get_market_comment exampleSettings (benchOnlyQuotes 500) = Except.ok "up" := by
  have general : ∀ (s : Settings) (stock_data : String → Option StockData)
      (bd : StockData) (c : ℚ),
      stock_data (pyUpper s.benchmark_index) = some bd →
      bd.change_percentage = some c →
      s.market_comments ≠ [] →
      get_market_comment s stock_data =
        Except.ok (formatComment (selectComment c s.market_comments).comment
          s.benchmark_name (percentageStr c)) := by
    intro s stock_data bd c hbd hc hne
    simp only [get_market_comment, hbd, hc, scanComments_eq_find, selectComment]
    cases hf : s.market_comments.find? (fun cc => decide (c < cc.threshold)) with
    | some cc => simp
    | none =>
      cases hlast : s.market_comments.getLast? with
      | some lastCC =>
        simp [Option.getD, List.getLastD_eq_getLast?, hlast]
      | none => exact absurd (List.getLast?_eq_none_iff.mp hlast) hne
  refine ⟨general, ?_, ?_, ?_⟩
  · have h := general exampleSettings (benchOnlyQuotes (-5/2))
      (mkStock "DJI" none (some (-5/2)) none) (-5/2)
      (by simp [benchOnlyQuotes, exampleSettings, pyUpper, upperChar]) rfl
      (by simp [exampleSettings])
    rw [h]
    norm_num [selectComment, exampleSettings, List.find?_cons, formatComment, replaceStr,
      replaceAux, List.isPrefixOf]
  · have h := general exampleSettings (benchOnlyQuotes (-10))
      (mkStock "DJI" none (some (-10)) none) (-10)
      (by simp [benchOnlyQuotes, exampleSettings, pyUpper, upperChar]) rfl
      (by simp [exampleSettings])
    rw [h]
    norm_num [selectComment, exampleSettings, List.find?_cons, formatComment, replaceStr,
      replaceAux, List.isPrefixOf]
  · have h := general exampleSettings (benchOnlyQuotes 500)
      (mkStock "DJI" none (some 500) none) 500
      (by simp [benchOnlyQuotes, exampleSettings, pyUpper, upperChar]) rfl
      (by simp [exampleSettings])
    rw [h]
    norm_num [selectComment, exampleSettings, List.find?_cons, formatComment, replaceStr,
      replaceAux, List.isPrefixOf]

/-- Witness for C2: the general selection rule applied at a concrete input
(change +0.5 against the example thresholds). -/
theorem market_comment_selection_witness :
    get_market_comment exampleSettings (benchOnlyQuotes (1/2)) =
      Except.ok (formatComment (selectComment (1/2) exampleSettings.market_comments).comment
        exampleSettings.benchmark_name (percentageStr (1/2))) :=
  market_comment_selection.1 exampleSettings (benchOnlyQuotes (1/2))
    (mkStock "DJI" none (some (1/2)) none) (1/2)
    (by simp [benchOnlyQuotes, exampleSettings, pyUpper, upperChar]) rfl
    (by simp [exampleSettings])

/-- A successful record construction implies every accessed index was in
range; in particular index 29, so the record had at least 30 fields. -/
theorem buildRecord_ok_length {symbol : String} {fields : List String} {r : StockData}
    (h : buildRecord symbol fields = Except.ok r) : 30 ≤ fields.length := by
  unfold buildRecord at h
  obtain ⟨f0, h0, h⟩ := except_bind_ok h
  obtain ⟨f1, h1, h⟩ := except_bind_ok h
  obtain ⟨f2, h2, h⟩ := except_bind_ok h
  obtain ⟨f3, h3, h⟩ := except_bind_ok h
  obtain ⟨ts, hts, h⟩ := except_bind_ok h
  obtain ⟨f4, h4, h⟩ := except_bind_ok h
  obtain ⟨f5, h5, h⟩ := except_bind_ok h
  obtain ⟨f6, h6, h⟩ := except_bind_ok h
  obtain ⟨f7, h7, h⟩ := except_bind_ok h
  obtain ⟨f8, h8, h⟩ := except_bind_ok h
  obtain ⟨f9, h9, h⟩ := except_bind_ok h
  obtain ⟨f10, h10, h⟩ := except_bind_ok h
  obtain ⟨f11, h11, h⟩ := except_bind_ok h
  obtain ⟨f12, h12, h⟩ := except_bind_ok h
  obtain ⟨f13, h13, h⟩ := except_bind_ok h
  obtain ⟨f14, h14, h⟩ := except_bind_ok h
  obtain ⟨f17, h17, h⟩ := except_bind_ok h
  obtain ⟨f19, h19, h⟩ := except_bind_ok h
  obtain ⟨f21, h21, h⟩ := except_bind_ok h
  obtain ⟨f22, h22, h⟩ := except_bind_ok h
  obtain ⟨f23, h23, h⟩ := except_bind_ok h
  obtain ⟨f24, h24, h⟩ := except_bind_ok h
  obtain ⟨f25, h25, h⟩ := except_bind_ok h
  obtain ⟨f26, h26, h⟩ := except_bind_ok h
  obtain ⟨f27, h27, h⟩ := except_bind_ok h
  obtain ⟨f29, h29, -⟩ := except_bind_ok h
  by_contra hlt
  push_neg at hlt
  have hnone : fields[29]? = none := by
    apply List.getElem?_eq_none
    omega
  simp [getF, hnone] at h29

/-- C8: any matched record whose value portion splits into fewer than 30
comma-separated fields (the highest accessed index being 29) makes the
whole batch parse fail with the propagating out-of-range access — the
malformed record is not skipped. -/
theorem parse_fails_on_short_record (ms : List (String × String))
    (symbol values : String) (hmem : (symbol, values) ∈ ms)
    (hshort : (pySplit ',' values).length < 30) :
    isOkE (parse_matches ms) = false := by
  induction ms with
  | nil => cases hmem
  | cons head rest ih =>
    cases hmem with
    | head =>
      cases hb : buildRecord symbol (pySplit ',' values) with
      | error e => simp [parse_matches, hb, isOkE, Bind.bind, Except.bind]
      | ok r => exact absurd (buildRecord_ok_length hb) (by omega)
    | tail _ hmem2 =>
      obtain ⟨a, b⟩ := head
      cases hb : buildRecord a (pySplit ',' b) with
      | error e => simp [parse_matches, hb, isOkE, Bind.bind, Except.bind]
      | ok r =>
        cases ht : parse_matches rest with
        | error e => simp [parse_matches, hb, ht, isOkE, Bind.bind, Except.bind]
        | ok tailRecords =>
          have := ih hmem2
          simp [ht, isOkE] at this

/-- Witness for C8: a single matched record with one field fails the parse
of the batch. -/
theorem parse_fails_on_short_record_witness :
    isOkE (parse_matches [("aapl", "x")]) = false :=
  parse_fails_on_short_record [("aapl", "x")] "aapl" "x" (by simp)
    (by simp [pySplit, splitChar])


/-- The holdings loop is insensitive to quote-less holdings: it computes
exactly what it computes on the portfolio restricted to quoted symbols,
with one warning per skipped holding (in portfolio order). -/
theorem calcHoldings_filter (sd : String → Option StockData)
    (portfolio : List (String × ℤ)) :
    calcHoldings sd portfolio =
      (calcHoldings sd (portfolio.filter (fun e => (sd e.1).isSome))).map
        (fun x => (x.1, x.2.1, x.2.2.1,
          (portfolio.filter (fun e => (sd e.1).isNone)).map (fun e => noDataWarning e.1))) := by
  induction portfolio with
  | nil => rfl
  | cons head rest ih =>
    obtain ⟨symbol, quantity⟩ := head
    cases hq : sd symbol with
    | none =>
      have hfs : (((symbol, quantity) :: rest).filter (fun e => (sd e.1).isSome)) =
          rest.filter (fun e => (sd e.1).isSome) := by
        simp [List.filter_cons, hq]
      have hfn : (((symbol, quantity) :: rest).filter (fun e => (sd e.1).isNone)) =
          (symbol, quantity) :: rest.filter (fun e => (sd e.1).isNone) := by
        simp [List.filter_cons, hq]
      rw [hfs, hfn]
      simp only [calcHoldings, hq]
      rw [ih]
      cases hres : calcHoldings sd (rest.filter (fun e => (sd e.1).isSome)) with
      | error e => simp [Except.map, Bind.bind, Except.bind]
      | ok x =>
        obtain ⟨n, p, d, w⟩ := x
        simp [Except.map, Bind.bind, Except.bind]
    | some stock =>
      have hfs : (((symbol, quantity) :: rest).filter (fun e => (sd e.1).isSome)) =
          (symbol, quantity) :: rest.filter (fun e => (sd e.1).isSome) := by
        simp [List.filter_cons, hq]
      have hfn : (((symbol, quantity) :: rest).filter (fun e => (sd e.1).isNone)) =
          rest.filter (fun e => (sd e.1).isNone) := by
        simp [List.filter_cons, hq]
      rw [hfs, hfn]
      cases hp : stock.price with
      | none =>
        cases hpc : stock.prev_close with
        | none => simp [calcHoldings, hq, hp, hpc, Except.map]
        | some prev_close => simp [calcHoldings, hq, hp, hpc, Except.map]
      | some price =>
        cases hpc : stock.prev_close with
        | none => simp [calcHoldings, hq, hp, hpc, Except.map]
        | some prev_close =>
          simp only [calcHoldings, hq, hp, hpc]
          rw [ih]
          cases hres : calcHoldings sd (rest.filter (fun e => (sd e.1).isSome)) with
          | error e => simp [Except.map, Bind.bind, Except.bind]
          | ok x =>
            obtain ⟨n, p, d, w⟩ := x
            simp [Except.map, Bind.bind, Except.bind]

/-- Every symbol recorded in the per-holding breakdown has a quote. -/
theorem calcHoldings_detail_keys {sd : String → Option StockData}
    {portfolio : List (String × ℤ)} {n p : ℚ} {d : List (String × StockDetail)}
    {w : List String} (h : calcHoldings sd portfolio = Except.ok (n, p, d, w)) :
    ∀ e ∈ d, (sd e.1).isSome := by
  induction portfolio generalizing n p d w with
  | nil =>
    simp only [calcHoldings, Except.ok.injEq, Prod.mk.injEq] at h
    obtain ⟨-, -, hd, -⟩ := h
    subst hd
    simp
  | cons head rest ih =>
    obtain ⟨symbol, quantity⟩ := head
    cases hq : sd symbol with
    | none =>
      simp only [calcHoldings, hq] at h
      cases hres : calcHoldings sd rest with
      | error e => rw [hres] at h; simp [Bind.bind, Except.bind] at h
      | ok x =>
        obtain ⟨n', p', d', w'⟩ := x
        rw [hres] at h
        simp only [Bind.bind, Except.bind, Except.ok.injEq, Prod.mk.injEq] at h
        obtain ⟨-, -, hd, -⟩ := h
        subst hd
        exact ih hres
    | some stock =>
      cases hp : stock.price with
      | none =>
        cases hpc : stock.prev_close <;> simp [calcHoldings, hq, hp, hpc] at h
      | some price =>
        cases hpc : stock.prev_close with
        | none => simp [calcHoldings, hq, hp, hpc] at h
        | some prev_close =>
          simp only [calcHoldings, hq, hp, hpc] at h
          cases hres : calcHoldings sd rest with
          | error e => rw [hres] at h; simp [Bind.bind, Except.bind] at h
          | ok x =>
            obtain ⟨n', p', d', w'⟩ := x
            rw [hres] at h
            simp only [Bind.bind, Except.bind, Except.ok.injEq, Prod.mk.injEq] at h
            obtain ⟨-, -, hd, -⟩ := h
            subst hd
            intro e he
            cases he with
            | head => simp [hq]
            | tail _ he2 => exact ih hres e he2

/-- C4: a held symbol absent from the quote mapping is skipped entirely:
the valuation equals the valuation of the portfolio restricted to quoted
holdings (so the missing holding contributes nothing to NLV or previous
NLV), the skipped holding is not part of the restricted portfolio, and on
success its warning is emitted while its symbol is absent from the
per-holding breakdown. -/
theorem valuation_skips_missing (s : Settings) (portfolio : List (String × ℤ))
    (cash : ℚ) (sd : String → Option StockData) (symbol : String) (quantity : ℤ)
    (hmem : (symbol, quantity) ∈ portfolio) (habs : sd symbol = none) :
    calculate_nlv s portfolio cash sd =
      (calculate_nlv s (portfolio.filter (fun e => (sd e.1).isSome)) cash sd).map
        (fun r => { r with warnings :=
          (portfolio.filter (fun e => (sd e.1).isNone)).map (fun e => noDataWarning e.1) }) ∧
    (symbol, quantity) ∉ portfolio.filter (fun e => (sd e.1).isSome) ∧
    (∀ r, calculate_nlv s portfolio cash sd = Except.ok r →
      noDataWarning symbol ∈ r.warnings ∧ symbol ∉ r.stock_details.map Prod.fst) := by
  have hEq : calculate_nlv s portfolio cash sd =
      (calculate_nlv s (portfolio.filter (fun e => (sd e.1).isSome)) cash sd).map
        (fun r => { r with warnings :=
          (portfolio.filter (fun e => (sd e.1).isNone)).map (fun e => noDataWarning e.1) }) := by
    simp only [calculate_nlv, calcHoldings_filter sd portfolio]
    cases hres : calcHoldings sd (portfolio.filter (fun e => (sd e.1).isSome)) with
    | error e => simp [Except.map, Bind.bind, Except.bind]
    | ok x =>
      obtain ⟨n, p, d, w⟩ := x
      cases hmc : get_market_comment s sd with
      | error e => simp [Except.map, Bind.bind, Except.bind, hmc]
      | ok mc => simp [Except.map, Bind.bind, Except.bind, hmc]
  refine ⟨hEq, ?_, ?_⟩
  · simp [List.mem_filter, habs]
  · intro r hr
    rw [hEq] at hr
    cases hx : calculate_nlv s (portfolio.filter (fun e => (sd e.1).isSome)) cash sd with
    | error e => rw [hx] at hr; simp [Except.map] at hr
    | ok r0 =>
      rw [hx] at hr
      simp only [Except.map, Except.ok.injEq] at hr
      subst hr
      constructor
      · simp only [NlvResult.warnings]
        exact List.mem_map.mpr ⟨(symbol, quantity),
          List.mem_filter.mpr ⟨hmem, by simp [habs]⟩, rfl⟩
      · simp only [NlvResult.stock_details]
        -- r0.stock_details comes from the filtered run, whose keys all have quotes
        have hdet : ∀ e ∈ r0.stock_details, (sd e.1).isSome := by
          have hun : calculate_nlv s (portfolio.filter (fun e => (sd e.1).isSome)) cash sd =
              Except.ok r0 := hx
          simp only [calculate_nlv] at hun
          obtain ⟨x, hx2, hk⟩ := except_bind_ok hun
          obtain ⟨n, p, d, w⟩ := x
          obtain ⟨mc, hmc, hk2⟩ := except_bind_ok hk
          simp only [Except.ok.injEq] at hk2
          subst hk2
          exact calcHoldings_detail_keys hx2
        intro hcontra
        obtain ⟨e, he, heq⟩ := List.mem_map.mp hcontra
        have := hdet e he
        rw [heq, habs] at this
        simp at this

/-- Concrete settings for the C4 witness scenario. -/
def c4Settings : Settings := ⟨"dji", "Dow Jones", [⟨999, "calm"⟩]⟩

/-- Concrete two-holding portfolio for the C4 witness scenario. -/
def c4Portfolio : List (String × ℤ) := [("AAPL", 10), ("MSFT", 5)]

/-- Concrete quote mapping for the C4 witness: AAPL quoted, MSFT missing. -/
def c4Quotes : String → Option StockData := fun sym =>
  if sym = "AAPL" then some (mkStock "AAPL" (some 150) none (some 140)) else none

/-- Witness for C4: with MSFT missing from the quotes, the valuation equals
the valuation of the AAPL-only restriction plus the MSFT warning. -/
theorem valuation_skips_missing_witness :
    calculate_nlv c4Settings c4Portfolio 1000 c4Quotes =
      (calculate_nlv c4Settings (c4Portfolio.filter (fun e => (c4Quotes e.1).isSome))
          1000 c4Quotes).map
        (fun r => { r with warnings :=
          ((c4Portfolio.filter (fun e => (c4Quotes e.1).isNone)).map (fun e => noDataWarning e.1)) }) :=
  (valuation_skips_missing c4Settings c4Portfolio 1000 c4Quotes "MSFT" 5
    (by simp [c4Portfolio]) (by simp [c4Quotes])).1

/-- Per-holding guard: any breakdown entry whose previous value (previous
close times quantity) is exactly zero was given change percentage zero by
the holdings loop. -/
theorem calcHoldings_zero_prev {sd : String → Option StockData}
    {portfolio : List (String × ℤ)} {n p : ℚ} {d : List (String × StockDetail)}
    {w : List String} (h : calcHoldings sd portfolio = Except.ok (n, p, d, w)) :
    ∀ e ∈ d, e.2.prev_price * (e.2.quantity : ℚ) = 0 → e.2.change_percentage = 0 := by
  induction portfolio generalizing n p d w with
  | nil =>
    simp only [calcHoldings, Except.ok.injEq, Prod.mk.injEq] at h
    obtain ⟨-, -, hd, -⟩ := h
    subst hd
    simp
  | cons head rest ih =>
    obtain ⟨symbol, quantity⟩ := head
    cases hq : sd symbol with
    | none =>
      simp only [calcHoldings, hq] at h
      cases hres : calcHoldings sd rest with
      | error e => rw [hres] at h; simp [Bind.bind, Except.bind] at h
      | ok x =>
        obtain ⟨n', p', d', w'⟩ := x
        rw [hres] at h
        simp only [Bind.bind, Except.bind, Except.ok.injEq, Prod.mk.injEq] at h
        obtain ⟨-, -, hd, -⟩ := h
        subst hd
        exact ih hres
    | some stock =>
      cases hp : stock.price with
      | none =>
        cases hpc : stock.prev_close <;> simp [calcHoldings, hq, hp, hpc] at h
      | some price =>
        cases hpc : stock.prev_close with
        | none => simp [calcHoldings, hq, hp, hpc] at h
        | some prev_close =>
          simp only [calcHoldings, hq, hp, hpc] at h
          cases hres : calcHoldings sd rest with
          | error e => rw [hres] at h; simp [Bind.bind, Except.bind] at h
          | ok x =>
            obtain ⟨n', p', d', w'⟩ := x
            rw [hres] at h
            simp only [Bind.bind, Except.bind, Except.ok.injEq, Prod.mk.injEq] at h
            obtain ⟨-, -, hd, -⟩ := h
            subst hd
            intro e he
            cases he with
            | head =>
              intro hzero
              simp only at hzero ⊢
              simp [hzero]
            | tail _ he2 => exact ih hres e he2

/-- C6: a holding whose previous value is exactly zero gets change
percentage zero, and a total previous NLV of exactly zero gives total
change percentage zero; both divisions are guarded, so no division by zero
occurs (the model's functions are total). -/
theorem zero_previous_is_zero_percent (s : Settings) (portfolio : List (String × ℤ))
    (cash : ℚ) (sd : String → Option StockData) (n p : ℚ)
    (d : List (String × StockDetail)) (w : List String)
    (h : calcHoldings sd portfolio = Except.ok (n, p, d, w)) :
    (∀ e ∈ d, e.2.prev_price * (e.2.quantity : ℚ) = 0 → e.2.change_percentage = 0) ∧
    (cash + p = 0 → ∀ r, calculate_nlv s portfolio cash sd = Except.ok r →
      r.change_percentage = 0) := by
  refine ⟨calcHoldings_zero_prev h, fun hzero r hr => ?_⟩
  simp only [calculate_nlv, h] at hr
  cases hmc : get_market_comment s sd with
  | error e => rw [hmc] at hr; simp [Bind.bind, Except.bind] at hr
  | ok mc =>
    rw [hmc] at hr
    simp only [Bind.bind, Except.bind, Except.ok.injEq] at hr
    subst hr
    simp [hzero]

/-- Concrete quote mapping for the C6 witness: previous close of zero. -/
def c6Quotes : String → Option StockData := fun sym =>
  if sym = "XYZ" then some (mkStock "XYZ" (some 50) none (some 0)) else none

/-- Witness for C6: a holding with previous close 0 records change
percentage 0 in the breakdown. -/
theorem zero_previous_is_zero_percent_witness :
    ((⟨3, 50, 0, 150, 0⟩ : StockDetail)).change_percentage = 0 :=
  (zero_previous_is_zero_percent c4Settings [("XYZ", 3)] 0 c6Quotes 150 0
      [("XYZ", (⟨3, 50, 0, 150, 0⟩ : StockDetail))] []
      (by simp [calcHoldings, c6Quotes, mkStock, Bind.bind, Except.bind]
          norm_num)).1
    ("XYZ", (⟨3, 50, 0, 150, 0⟩ : StockDetail)) (by simp) (by norm_num)

/-- Concrete settings for the end-to-end scenario: benchmark change +1.2
falls in the bucket above threshold 1. -/
def c7Settings : Settings := ⟨"dji", "Dow Jones", [⟨-1, "down"⟩, ⟨1, "flat"⟩, ⟨999, "up"⟩]⟩

/-- Concrete quote mapping for the end-to-end scenario: AAPL at 150 with
previous close 140, benchmark change percentage +1.2. -/
def c7Quotes : String → Option StockData := fun sym =>
  if sym = "AAPL" then some (mkStock "AAPL" (some 150) none (some 140))
  else if sym = "DJI" then some (mkStock "DJI" none (some (6/5)) none)
  else none

/-- C7: the end-to-end scenario — portfolio of 10 AAPL plus 1000 cash,
AAPL at 150 over a previous close of 140 — yields stock value 1500 over a
previous 1400 (so NLV 2500 over 2400), change 100, change percentage 25/6
(about 4.17), and a JSON report whose nlv block is 2500 / 100.0 / 4.17. -/
theorem end_to_end_scenario :
    calcHoldings c7Quotes [("AAPL", 10)] =
      Except.ok (1500, 1400, [("AAPL", (⟨10, 150, 140, 100, 50/7⟩ : StockDetail))], []) ∧
    calculate_nlv c7Settings [("AAPL", 10)] 1000 c7Quotes =
      Except.ok ⟨2500, 100, 25/6, [("AAPL", (⟨10, 150, 140, 100, 50/7⟩ : StockDetail))],
        "up", []⟩ ∧
    (generate_report_json c7Settings [("AAPL", 10)] 1000 c7Quotes).map
      (fun r => (r.nlv.current, r.nlv.change, r.nlv.change_percentage)) =
      Except.ok (2500, 100, 417/100) := by
  have h1 : calcHoldings c7Quotes [("AAPL", 10)] =
      Except.ok (1500, 1400, [("AAPL", (⟨10, 150, 140, 100, 50/7⟩ : StockDetail))], []) := by
    simp [calcHoldings, c7Quotes, mkStock, Bind.bind, Except.bind]
    norm_num
  have hmc : get_market_comment c7Settings c7Quotes = Except.ok "up" := by
    simp [get_market_comment, c7Quotes, c7Settings, pyUpper, upperChar, mkStock, scanComments,
      percentageStr, formatComment, replaceStr, replaceAux, List.isPrefixOf]
    norm_num [formatComment, replaceStr, replaceAux, List.isPrefixOf]
  have hnlv : calculate_nlv c7Settings [("AAPL", 10)] 1000 c7Quotes =
      Except.ok ⟨2500, 100, 25/6, [("AAPL", (⟨10, 150, 140, 100, 50/7⟩ : StockDetail))],
        "up", []⟩ := by
    simp [calculate_nlv, h1, hmc, Bind.bind, Except.bind]
    norm_num
  have hr1 : pyRound2 (25/6) = 417/100 := by
    unfold pyRound2 roundHalfEven
    norm_num
  have hr2 : pyRound2 (100 : ℚ) = 100 := by
    unfold pyRound2 roundHalfEven
    norm_num
  have hr3 : pyRound2 (2500 : ℚ) = 2500 := by
    unfold pyRound2 roundHalfEven
    norm_num
  refine ⟨h1, hnlv, ?_⟩
  simp only [generate_report_json, Bind.bind, Except.bind]
  rw [hnlv]
  simp [c7Settings, c7Quotes, pyUpper, upperChar, mkStock, Except.map, hr1, hr2, hr3]

/-- A successful `Except` is an `ok` of something. -/
theorem isOkE_exists {ε α : Type} {e : Except ε α} (h : isOkE e = true) :
    ∃ a, e = Except.ok a := by
  cases e with
  | ok a => exact ⟨a, rfl⟩
  | error x => simp [isOkE] at h

/-- The holdings loop succeeds whenever every quoted held symbol carries a
numeric price and previous close (missing symbols are simply skipped). -/
theorem calcHoldings_ok_of_present (sd : String → Option StockData)
    (portfolio : List (String × ℤ))
    (hq : portfolio.all (fun e =>
      match sd e.1 with
      | some stock => stock.price.isSome && stock.prev_close.isSome
      | none => true)) :
    isOkE (calcHoldings sd portfolio) = true := by
  induction portfolio with
  | nil => rfl
  | cons head rest ih =>
    obtain ⟨symbol, quantity⟩ := head
    simp only [List.all_cons, Bool.and_eq_true] at hq
    obtain ⟨hhead, hrest⟩ := hq
    obtain ⟨x, hx⟩ := isOkE_exists (ih hrest)
    obtain ⟨n, p, d, w⟩ := x
    cases hsd : sd symbol with
    | none => simp [calcHoldings, hsd, hx, Bind.bind, Except.bind, isOkE]
    | some stock =>
      simp only [hsd, Bool.and_eq_true, Option.isSome_iff_exists] at hhead
      obtain ⟨⟨price, hp⟩, prev, hpc⟩ := hhead
      simp [calcHoldings, hsd, hp, hpc, hx, Bind.bind, Except.bind, isOkE]

/-- C1 (amended): with the benchmark symbol absent from the quote mapping
(and every quoted held symbol numerically priced), the market comment is
the fixed placeholder naming the benchmark, and the text-report and
notification-body renderings complete without error — but the JSON report
path fails (its direct dict indexing of the benchmark raises `KeyError`),
so the original "non-fatal on every output path" is false. -/
theorem benchmark_missing_report_paths (s : Settings) (portfolio : List (String × ℤ))
    (cash : ℚ) (sd : String → Option StockData)
    (hb : sd (pyUpper s.benchmark_index) = none)
    (hq : portfolio.all (fun e =>
      match sd e.1 with
      | some stock => stock.price.isSome && stock.prev_close.isSome
      | none => true)) :
    get_market_comment s sd =
      Except.ok ("Unable to retrieve " ++ s.benchmark_name ++ " index data") ∧
    isOkE (generate_report_string s portfolio cash sd true) = true ∧
    isOkE (generate_report_string s portfolio cash sd false) = true ∧
    isOkE (generate_report_json s portfolio cash sd) = false := by
  have hmc : get_market_comment s sd =
      Except.ok ("Unable to retrieve " ++ s.benchmark_name ++ " index data") := by
    simp [get_market_comment, hb]
  obtain ⟨x, hx⟩ := isOkE_exists (calcHoldings_ok_of_present sd portfolio hq)
  obtain ⟨n, p, d, w⟩ := x
  refine ⟨hmc, ?_, ?_, ?_⟩
  · simp [generate_report_string, calculate_nlv, hx, hmc, Bind.bind, Except.bind, isOkE]
  · simp [generate_report_string, calculate_nlv, hx, hmc, Bind.bind, Except.bind, isOkE]
  · simp [generate_report_json, calculate_nlv, hx, hmc, hb, Bind.bind, Except.bind, isOkE]

/-- Witness for C1 (amended) on the concrete AAPL/MSFT portfolio with the
benchmark absent. -/
theorem benchmark_missing_report_paths_witness :
    get_market_comment c4Settings c4Quotes =
      Except.ok ("Unable to retrieve " ++ c4Settings.benchmark_name ++ " index data") ∧
    isOkE (generate_report_string c4Settings c4Portfolio 1000 c4Quotes true) = true ∧
    isOkE (generate_report_string c4Settings c4Portfolio 1000 c4Quotes false) = true ∧
    isOkE (generate_report_json c4Settings c4Portfolio 1000 c4Quotes) = false :=
  benchmark_missing_report_paths c4Settings c4Portfolio 1000 c4Quotes
    (by simp [c4Quotes, c4Settings, pyUpper, upperChar]) (by decide)

/-- Counterexample to C1 as stated: with an empty quote mapping (benchmark
absent) the JSON report path raises `KeyError` rather than completing, so
report generation is not non-fatal on every output path. -/
theorem benchmark_missing_json_counterexample :
    generate_report_json c7Settings [("AAPL", (10 : ℤ))] 1000 (fun _ => none) =
      Except.error "KeyError: benchmark index absent from stock_data" := by
  simp [generate_report_json, calculate_nlv, calcHoldings, get_market_comment,
    pyUpper, upperChar, Bind.bind, Except.bind]
